import Mathlib

/-!
Verification of the neural-network example scripts of Replicating-DeepMind
(sandbox/example2.py, sandbox/example3.py, src/ai/NeuralNet.py) against their
natural-language specification.

Tensors are modelled as a shape (list of dimensions) together with the
flattened list of entries; floating-point values are modelled by exact
rationals (or reals where square roots appear).  Python exceptions are
modelled by `Except`.
-/

set_option autoImplicit false

namespace RD

/-- An n-dimensional array: its shape and its row-major flattened entries. -/
structure Tensor where
  shape : List ℕ
  data : List ℚ
deriving Repr, DecidableEq

/-- Number of dimensions (`ndarray.ndim` / theano `ndim`): the rank. -/
def Tensor.ndim (t : Tensor) : ℕ := t.shape.length

/-- Python exceptions raised by the example scripts. -/
inductive PyError where
  | typeError
  | assertionError
  | indexError
deriving Repr, DecidableEq

/-- Elementwise subtraction of two flattened tensors (`self.output - y`). -/
def tsub (a b : List ℚ) : List ℚ := List.zipWith (fun x y => x - y) a b

/-- `T.mean`: mean over all entries of a flattened tensor. -/
def tmean (a : List ℚ) : ℚ := a.sum / a.length

/-- `OutputLayer.errors` of example2.py lines 67-78 and example3.py lines 75-86:
raises `TypeError` when `y.ndim != self.output.ndim`, otherwise returns
`np.abs(T.mean(self.output - y))`. -/
def errors (output y : Tensor) : Except PyError ℚ :=
  if y.ndim ≠ output.ndim then .error .typeError
  else .ok |tmean (tsub output.data y.data)|

/-- The spec formula of claim C1: mean(|predicted − target|), the mean
absolute error over all elements. -/
def maeSpec (output y : Tensor) : ℚ :=
  tmean ((tsub output.data y.data).map (fun d => |d|))

/-- Concrete predicted tensor `[1, -1]` (shape `(2,)`). -/
def cexPred : Tensor := ⟨[2], [1, -1]⟩

/-- Concrete target tensor `[0, 0]` (shape `(2,)`). -/
def cexTarg : Tensor := ⟨[2], [0, 0]⟩

/-- Predicted tensor of shape `(2,)` used for the rank-mismatch example. -/
def cexRank1 : Tensor := ⟨[2], [0, 0]⟩

/-- Target tensor of shape `(3,)`: same rank as `cexRank1`, different dimension. -/
def cexDim3 : Tensor := ⟨[3], [0, 0, 0]⟩

/-- Predicted tensor of shape `(2,1)` from the spec example for C2. -/
def cexShape21 : Tensor := ⟨[2, 1], [0, 0]⟩

/-- Rectifier of the OutputLayer (example2.py lines 58-62 with threshold 1,
example3.py lines 66-70 with threshold 0): `above_threshold = lin_output > threshold`
(1 or 0), then `output = above_threshold * (lin_output - threshold)`. -/
def thresholded (lin t : ℚ) : ℚ := (if t < lin then 1 else 0) * (lin - t)

/-- The rectifier applied elementwise over the flattened affine output. -/
def thresholdedOutput (lin : List ℚ) (t : ℚ) : List ℚ :=
  lin.map (fun v => thresholded v t)

/-- Elementwise update of one parameter tensor: `param - learning_rate * gparam`
(example2.py line 151, example3.py line 227). -/
def paramUpdate (lr : ℚ) (p g : List ℚ) : List ℚ :=
  List.zipWith (fun pe ge => pe - lr * ge) p g

/-- The full update list built by zipping `classifier.params` with the gradients
(example2.py lines 148-151, example3.py lines 224-227): every parameter is paired
with its gradient and replaced by `p - learning_rate * g`. -/
def sgdUpdates (lr : ℚ) (params grads : List (List ℚ)) : List (List ℚ) :=
  List.zipWith (paramUpdate lr) params grads

/-- Python 2 feature-map size of the convolutional layer (example3.py line 119):
`feature_map_size = 1 + (image_shape[2] - filter_shape[2]) / stride`, where `/`
is Python 2 integer floor division, modelled by `Int.fdiv`. -/
def feature_map_size (image_size filter_size stride : ℤ) : ℤ :=
  1 + Int.fdiv (image_size - filter_size) stride

/-- Fan-out of the convolutional layer (example3.py line 120):
`filter_shape[0] * feature_map_size * feature_map_size`. -/
def conv_fan_out (filters image_size filter_size stride : ℤ) : ℤ :=
  filters * feature_map_size image_size filter_size stride
    * feature_map_size image_size filter_size stride

/-- The spec formula of claim C4: `filters × floor(1 + (image_size − filter_size)
/ stride)²` with exact (rational) division and a real floor. -/
def specConvFanOut (filters image_size filter_size stride : ℤ) : ℤ :=
  filters * ⌊1 + ((image_size : ℚ) - (filter_size : ℚ)) / (stride : ℚ)⌋ ^ 2

/-- A length-4 shape tuple, as used for `filter_shape` (number of filters,
input channels, filter height, filter width) and `image_shape` (batch size,
input channels, image height, image width). -/
structure Shape4 where
  s0 : ℕ
  s1 : ℕ
  s2 : ℕ
  s3 : ℕ
deriving Repr, DecidableEq

/-- Fan-in of the convolutional layer (example3.py line 116):
`np.prod(filter_shape[1:])`. -/
def conv_fan_in (filter_shape : Shape4) : ℕ :=
  filter_shape.s1 * filter_shape.s2 * filter_shape.s3

/-- The data of a constructed convolutional layer that the claims mention. -/
structure ConvolutionalLayer where
  fan_in : ℕ
  fan_out : ℤ
deriving Repr, DecidableEq

/-- Construction of `ConvolutionalLayer` (example3.py lines 92-148): line 111
asserts `image_shape[1] == filter_shape[1]` (matching channel dimensions) and
construction fails there when the assertion does not hold; otherwise `fan_in`
and `fan_out` are computed as above. -/
def convInit (filter_shape image_shape : Shape4) (stride : ℤ) :
    Except PyError ConvolutionalLayer :=
  if image_shape.s1 = filter_shape.s1 then
    .ok { fan_in := conv_fan_in filter_shape,
          fan_out := conv_fan_out filter_shape.s0 image_shape.s2 filter_shape.s2 stride }
  else .error .assertionError

/-- Summing an elementwise difference of equal-length lists gives the
difference of the sums. -/
lemma sum_tsub (a : List ℚ) : ∀ b : List ℚ, a.length = b.length →
    (RD.tsub a b).sum = a.sum - b.sum := by
  induction a with
  | nil =>
    intro b h
    cases b with
    | nil => simp [RD.tsub]
    | cons x xs => simp at h
  | cons x xs ih =>
    intro b h
    cases b with
    | nil => simp at h
    | cons y ys =>
      simp only [List.length_cons, Nat.succ_inj] at h
      simp only [RD.tsub, List.zipWith_cons_cons, List.sum_cons] at *
      rw [ih ys h]
      ring

/-- The Xavier-style weight bound `np.sqrt(6. / (n_in + n_out))`, with `np.sqrt`
modelled by the real square root. -/
noncomputable def xavierBound (fan_in fan_out : ℕ) : ℝ :=
  Real.sqrt (6 / ((fan_in : ℝ) + (fan_out : ℝ)))

/-- The `low` argument of `np.random.uniform` in example3.py HiddenLayer
(lines 33-35): `W_bound = np.sqrt(6./(n_in+n_nodes))`, `low=-W_bound`. -/
noncomputable def hiddenUniformLow (n_in n_nodes : ℕ) : ℝ := -(xavierBound n_in n_nodes)

/-- The `high` argument of `np.random.uniform` in example3.py HiddenLayer:
`high=W_bound`. -/
noncomputable def hiddenUniformHigh (n_in n_nodes : ℕ) : ℝ := xavierBound n_in n_nodes

/-- The `W_bound` of example3.py OutputLayer (line 58):
`W_bound = -np.sqrt(6. / (n_in + n_nodes))` — note the leading minus sign. -/
noncomputable def outputWBound (n_in n_nodes : ℕ) : ℝ := -(xavierBound n_in n_nodes)

/-- The `low` argument of `np.random.uniform` in example3.py OutputLayer
(line 59): `low=-W_bound`. -/
noncomputable def outputUniformLow (n_in n_nodes : ℕ) : ℝ := -(outputWBound n_in n_nodes)

/-- The `high` argument of `np.random.uniform` in example3.py OutputLayer
(line 59): `high=W_bound`. -/
noncomputable def outputUniformHigh (n_in n_nodes : ℕ) : ℝ := outputWBound n_in n_nodes

/-- The `low` argument of `np.random.uniform` in example3.py ConvolutionalLayer
(lines 124-127): `W_bound = np.sqrt(6. / (self.fan_in + self.fan_out))`,
`low=-W_bound`. -/
noncomputable def convUniformLow (fan_in fan_out : ℕ) : ℝ := -(xavierBound fan_in fan_out)

/-- The `high` argument of `np.random.uniform` in example3.py ConvolutionalLayer:
`high=W_bound`. -/
noncomputable def convUniformHigh (fan_in fan_out : ℕ) : ℝ := xavierBound fan_in fan_out

/-- Forward output of a single affine unit with two inputs (example2.py
HiddenLayer with `n_in=2`, `n_nodes=1`): `x·W + b`. -/
def affineForward (x1 x2 w1 w2 b : ℚ) : ℚ := x1 * w1 + x2 * w2 + b

/-- Cost of the one-sample batch: `|mean(output − y)|` over the single entry,
as computed by `errors` on the 1×1 prediction (example2.py line 135 with zero
regularization weights). -/
def scalarCost (x1 x2 w1 w2 b y : ℚ) : ℚ := |affineForward x1 x2 w1 w2 b - y|

/-- Sign of the residual `output − y` of the one-sample batch. -/
def residualSign (x1 x2 w1 w2 b y : ℚ) : ℚ :=
  if 0 < affineForward x1 x2 w1 w2 b - y then 1
  else if affineForward x1 x2 w1 w2 b - y < 0 then -1
  else 0

/-- Gradient of `scalarCost` with respect to `(w1, w2, b)`, as delivered by the
autodiff engine (`T.grad`, example2.py lines 142-145): `sign(r)·(x1, x2, 1)`
where `r` is the residual; `scalarCost_locally_linear` below checks that this
is the exact local slope of the cost at points with positive residual. -/
def scalarCostGrad (x1 x2 w1 w2 b y : ℚ) : ℚ × ℚ × ℚ :=
  (residualSign x1 x2 w1 w2 b y * x1,
   residualSign x1 x2 w1 w2 b y * x2,
   residualSign x1 x2 w1 w2 b y)

/-- One plain gradient-descent step on `(w1, w2, b)` (example2.py lines
148-151): each parameter moves to `p − learning_rate · g`. -/
def gdStep (lr x1 x2 w1 w2 b y : ℚ) : ℚ × ℚ × ℚ :=
  (w1 - lr * (scalarCostGrad x1 x2 w1 w2 b y).1,
   w2 - lr * (scalarCostGrad x1 x2 w1 w2 b y).2.1,
   b - lr * (scalarCostGrad x1 x2 w1 w2 b y).2.2)

/-- At a point with positive residual, the cost is exactly linear in any
parameter perturbation that keeps the residual positive, with slopes given by
`scalarCostGrad`: the modelled gradient is the true derivative there. -/
lemma scalarCost_locally_linear (x1 x2 w1 w2 b y h1 h2 hb : ℚ)
    (hr : 0 < affineForward x1 x2 w1 w2 b - y)
    (hsmall : |x1 * h1 + x2 * h2 + hb| < affineForward x1 x2 w1 w2 b - y) :
    scalarCost x1 x2 (w1 + h1) (w2 + h2) (b + hb) y
      = scalarCost x1 x2 w1 w2 b y
          + ((scalarCostGrad x1 x2 w1 w2 b y).1 * h1
            + (scalarCostGrad x1 x2 w1 w2 b y).2.1 * h2
            + (scalarCostGrad x1 x2 w1 w2 b y).2.2 * hb) := by
  have hsign : residualSign x1 x2 w1 w2 b y = 1 := by
    unfold residualSign
    rw [if_pos hr]
  have habs := (abs_lt.mp hsmall).1
  have hexp : affineForward x1 x2 (w1 + h1) (w2 + h2) (b + hb) - y
      = (affineForward x1 x2 w1 w2 b - y) + (x1 * h1 + x2 * h2 + hb) := by
    unfold affineForward
    ring
  have hpos : 0 < affineForward x1 x2 (w1 + h1) (w2 + h2) (b + hb) - y := by
    rw [hexp]
    linarith
  simp only [scalarCost, scalarCostGrad, hsign, one_mul]
  rw [abs_of_pos hr, abs_of_pos hpos, hexp]

/-- The Dataset Adapter state: the list of (input, target) batches.  Modelled
from the spec: the operation `batch(i) → (input_tensor, target_tensor)` of spec
section 4.4 has no implementation under src — `SimpleDataProvider` in
src/ai/NeuralNet.py only declares `get_data_dims` (with the analogous bounds
assertion on its index) and a no-op `advance_batch` — so the adapter is built
from the spec's words: it wraps raw arrays into tensors, `num_batches` counts
the batches, and `batch(i)` fails with IndexError when `i` is outside
`[0, num_batches)`. -/
structure Dataset where
  batches : List (Tensor × Tensor)

/-- Number of batches held by the adapter. -/
def Dataset.num_batches (d : Dataset) : ℕ := d.batches.length

/-- Modelled from the spec: `batch(i) → (input_tensor, target_tensor)` with
bounds checking; fails with IndexError when `i` is outside `[0, num_batches)`. -/
def Dataset.batch (d : Dataset) (i : ℤ) : Except PyError (Tensor × Tensor) :=
  if h : 0 ≤ i ∧ i < (d.batches.length : ℤ) then
    .ok (d.batches.get ⟨i.toNat, by omega⟩)
  else .error .indexError

/-- `inputs.shape[0]` of an NxM array. -/
def Tensor.dim0 (t : Tensor) : ℕ := t.shape.getD 0 0

/-- `inputs.shape[1]` of an NxM array. -/
def Tensor.dim1 (t : Tensor) : ℕ := t.shape.getD 1 0

/-- The observable state of the `NeuralNet` wrapper (src/ai/NeuralNet.py):
the declared data dimensions and the log of batches handed to the
accelerator by `libmodel.startBatch`. -/
structure NeuralNet where
  nr_inputs : ℕ
  nr_outputs : ℕ
  dispatched : List (Tensor × Tensor)
deriving DecidableEq

/-- `NeuralNet.train` (src/ai/NeuralNet.py lines 54-72): asserts
`inputs.shape[0] == self.nr_inputs`, `outputs.shape[0] == self.nr_outputs` and
`inputs.shape[1] == outputs.shape[1]`, then calls
`libmodel.startBatch([inputs, outputs], 1, False)` — modelled by appending the
batch to the dispatch log; a failed assertion raises before `startBatch`. -/
def NeuralNet.train (net : NeuralNet) (inputs outputs : Tensor) :
    Except PyError NeuralNet :=
  if inputs.dim0 = net.nr_inputs ∧ outputs.dim0 = net.nr_outputs ∧
      inputs.dim1 = outputs.dim1 then
    .ok { net with dispatched := net.dispatched ++ [(inputs, outputs)] }
  else .error .assertionError

end RD

/-- C1. Counterexample: the claim says `errors` returns mean(|predicted − target|);
on predicted `[1, -1]`, target `[0, 0]` (identical shape `(2,)`) the code returns
`|mean(predicted − target)| = 0` while the mean absolute error is `1`. -/
theorem C1_errors_not_mae :
    RD.errors RD.cexPred RD.cexTarg = .ok 0 ∧
    RD.maeSpec RD.cexPred RD.cexTarg = 1 ∧
    RD.errors RD.cexPred RD.cexTarg ≠ .ok (RD.maeSpec RD.cexPred RD.cexTarg) := by
  have h1 : RD.errors RD.cexPred RD.cexTarg = .ok 0 := by
    norm_num [RD.errors, RD.tmean, RD.tsub, RD.cexPred, RD.cexTarg, RD.Tensor.ndim]
  have h2 : RD.maeSpec RD.cexPred RD.cexTarg = 1 := by
    norm_num [RD.maeSpec, RD.tmean, RD.tsub, RD.cexPred, RD.cexTarg]
  refine ⟨h1, h2, ?_⟩
  rw [h1, h2]
  intro h
  exact zero_ne_one (Except.ok.inj h)

/-- C1 (amended). For predicted and target of identical rank and entry count,
`errors` returns the absolute value of the mean difference,
`|sum(predicted) − sum(target)| / n` — the absolute mean error, not the mean
absolute error. -/
theorem C1_errors_abs_mean (output y : RD.Tensor)
    (hrank : y.ndim = output.ndim)
    (hlen : output.data.length = y.data.length) :
    RD.errors output y = .ok (|output.data.sum - y.data.sum| / y.data.length) := by
  unfold RD.errors RD.tmean
  rw [if_neg (by omega)]
  have hlenz : (RD.tsub output.data y.data).length = y.data.length := by
    rw [RD.tsub, List.length_zipWith, hlen, min_self]
  rw [RD.sum_tsub output.data y.data hlen, hlenz, abs_div,
    abs_of_nonneg (show (0 : ℚ) ≤ (y.data.length : ℚ) from Nat.cast_nonneg _)]

/-- C1 witness: the amended theorem applied to the concrete pair
predicted `[1, -1]`, target `[0, 0]`. -/
theorem C1_errors_abs_mean_witness :
    RD.errors RD.cexPred RD.cexTarg
      = .ok (|RD.cexPred.data.sum - RD.cexTarg.data.sum| / RD.cexTarg.data.length) :=
  C1_errors_abs_mean RD.cexPred RD.cexTarg rfl rfl

/-- C4. For a positive stride, the code's fan-out (computed with Python 2
integer floor division) equals `filters × floor(1 + (image_size − filter_size)
/ stride)²` with exact division; on the script's configuration (image 84×84,
filter 8×8, stride 4, 16 filters) the feature map size is 20 and the layer is
constructed with fan-out 6400. -/
theorem C4_conv_fan_out (filters image_size filter_size stride : ℤ)
    (hs : 0 < stride) :
    RD.conv_fan_out filters image_size filter_size stride
        = RD.specConvFanOut filters image_size filter_size stride ∧
    RD.feature_map_size 84 8 4 = 20 ∧
    Except.map (fun l => l.fan_out) (RD.convInit ⟨16, 1, 8, 8⟩ ⟨1, 1, 84, 84⟩ 4)
        = .ok 6400 := by
  refine ⟨?_, by decide, rfl⟩
  have hs0 : (0 : ℤ) ≤ stride := le_of_lt hs
  have hfloor : ⌊1 + ((image_size : ℚ) - (filter_size : ℚ)) / (stride : ℚ)⌋
      = RD.feature_map_size image_size filter_size stride := by
    have hcast : ((stride.toNat : ℕ) : ℚ) = (stride : ℚ) := by
      rw [← Int.cast_natCast, Int.toNat_of_nonneg hs0]
    have hdiff : ((image_size : ℚ) - (filter_size : ℚ))
        = ((image_size - filter_size : ℤ) : ℚ) := by
      push_cast
      ring
    rw [add_comm, Int.floor_add_one, hdiff, ← hcast,
      Rat.floor_intCast_div_natCast, Int.toNat_of_nonneg hs0,
      ← Int.fdiv_eq_ediv _ hs0, RD.feature_map_size]
    ring
  rw [RD.specConvFanOut, hfloor, RD.conv_fan_out]
  ring

/-- C4 witness: the theorem applied at the script's stride 4. -/
theorem C4_conv_fan_out_witness :
    RD.conv_fan_out 16 84 8 4 = RD.specConvFanOut 16 84 8 4 ∧
    RD.feature_map_size 84 8 4 = 20 ∧
    Except.map (fun l => l.fan_out) (RD.convInit ⟨16, 1, 8, 8⟩ ⟨1, 1, 84, 84⟩ 4)
        = .ok 6400 :=
  C4_conv_fan_out 16 84 8 4 (by decide)

/-- C8. Constructing the convolutional layer fails (the line-111 assertion, the
spec's ConfigurationError) exactly when the image shape's channel dimension
differs from the filter shape's channel dimension, and succeeds when they are
equal. -/
theorem C8_conv_channel_check (filter_shape image_shape : RD.Shape4) (stride : ℤ) :
    ((RD.convInit filter_shape image_shape stride).isOk
        ↔ image_shape.s1 = filter_shape.s1) ∧
    (RD.convInit filter_shape image_shape stride = .error .assertionError
        ↔ image_shape.s1 ≠ filter_shape.s1) := by
  by_cases h : image_shape.s1 = filter_shape.s1
  · constructor
    · simp [RD.convInit, h, Except.isOk, Except.toBool]
    · simp [RD.convInit, h]
  · constructor
    · simp [RD.convInit, h, Except.isOk, Except.toBool]
    · simp [RD.convInit, h]

/-- C2. Counterexample: the claim says every pair of tensors whose shapes differ
raises; the shapes `(2,)` and `(3,)` differ (equal rank, unequal dimension) yet
`errors` succeeds, because the code only compares `ndim`. -/
theorem C2_errors_dim_mismatch_accepted :
    RD.cexRank1.shape ≠ RD.cexDim3.shape ∧
    RD.errors RD.cexRank1 RD.cexDim3 = .ok 0 := by
  constructor
  · decide
  · norm_num [RD.errors, RD.tmean, RD.tsub, RD.cexRank1, RD.cexDim3, RD.Tensor.ndim]

/-- C2 (amended). The shape check of `errors` raises exactly when the ranks
(`ndim`) differ; equal-rank dimension mismatches pass the check.  In particular
predicted shape `(2,1)` against target shape `(2,)` raises, as the claim states. -/
theorem C2_errors_rank_check :
    (∀ output y : RD.Tensor,
        RD.errors output y = .error .typeError ↔ y.ndim ≠ output.ndim) ∧
    RD.errors RD.cexShape21 RD.cexTarg = .error .typeError := by
  constructor
  · intro output y
    by_cases h : y.ndim = output.ndim
    · simp [RD.errors, h]
    · simp [RD.errors, h]
  · norm_num [RD.errors, RD.cexShape21, RD.cexTarg, RD.Tensor.ndim]

/-- C7. The thresholded affine output equals `max(affine_output − threshold, 0)`
elementwise, hence no entry is below 0, and at threshold 0 it is the positive
part of the affine output. -/
theorem C7_thresholded_is_relu :
    (∀ (lin : List ℚ) (t : ℚ),
        RD.thresholdedOutput lin t = lin.map (fun v => max (v - t) 0)) ∧
    (∀ (lin : List ℚ) (t : ℚ) (i : ℕ),
        0 ≤ (RD.thresholdedOutput lin t).getD i 0) ∧
    (∀ lin : List ℚ,
        RD.thresholdedOutput lin 0 = lin.map (fun v => max v 0)) := by
  have hscalar : ∀ v t : ℚ, RD.thresholded v t = max (v - t) 0 := by
    intro v t
    by_cases h : t < v
    · rw [RD.thresholded, if_pos h, one_mul, max_eq_left (by linarith)]
    · rw [RD.thresholded, if_neg h, zero_mul, max_eq_right (by linarith [not_lt.mp h])]
  refine ⟨?_, ?_, ?_⟩
  · intro lin t
    simp only [RD.thresholdedOutput]
    exact List.map_congr_left (fun v _ => hscalar v t)
  · intro lin t i
    by_cases hi : i < (RD.thresholdedOutput lin t).length
    · rw [List.getD_eq_getElem _ _ hi]
      simp only [RD.thresholdedOutput, List.getElem_map]
      rw [hscalar]
      exact le_max_right _ _
    · rw [List.getD_eq_default _ _ (not_lt.mp hi)]
  · intro lin
    simp only [RD.thresholdedOutput]
    refine List.map_congr_left (fun v _ => ?_)
    rw [hscalar, sub_zero]

/-- C6. Every parameter receives an update (the update list has one entry per
parameter), and entry `j` of updated parameter `i` is exactly
`p[i][j] − learning_rate · g[i][j]`: plain gradient descent, no momentum, no
adaptive rate. -/
theorem C6_sgd_plain_update (lr : ℚ) (params grads : List (List ℚ))
    (hlen : params.length = grads.length) :
    (RD.sgdUpdates lr params grads).length = params.length ∧
    ∀ i j : ℕ, i < params.length →
      j < (params.getD i []).length → j < (grads.getD i []).length →
      ((RD.sgdUpdates lr params grads).getD i []).getD j 0
        = (params.getD i []).getD j 0 - lr * ((grads.getD i []).getD j 0) := by
  constructor
  · unfold RD.sgdUpdates
    rw [List.length_zipWith, hlen, min_self]
  · intro i j hi hj hg
    have hi2 : i < grads.length := hlen ▸ hi
    have houter : (RD.sgdUpdates lr params grads).getD i []
        = RD.paramUpdate lr (params.getD i []) (grads.getD i []) := by
      unfold RD.sgdUpdates
      have hiz : i < (List.zipWith (RD.paramUpdate lr) params grads).length := by
        rw [List.length_zipWith, hlen, min_self]
        exact hi2
      rw [List.getD_eq_getElem _ _ hiz, List.getElem_zipWith,
        List.getD_eq_getElem _ _ hi, List.getD_eq_getElem _ _ hi2]
    rw [houter]
    unfold RD.paramUpdate
    have hjz : j < (List.zipWith (fun pe ge => pe - lr * ge)
        (params.getD i []) (grads.getD i [])).length := by
      rw [List.length_zipWith]
      exact lt_min hj hg
    rw [List.getD_eq_getElem _ _ hjz, List.getElem_zipWith,
      List.getD_eq_getElem _ _ hj, List.getD_eq_getElem _ _ hg]

/-- C6 witness: the theorem applied to a concrete parameter list
`[[1, 2], [3]]` with gradients `[[10, 20], [30]]` and rate `1/2`. -/
theorem C6_sgd_plain_update_witness :
    (RD.sgdUpdates (1/2) [[1, 2], [3]] [[10, 20], [30]]).length
        = ([[1, 2], [3]] : List (List ℚ)).length ∧
    ∀ i j : ℕ, i < ([[1, 2], [3]] : List (List ℚ)).length →
      j < (([[1, 2], [3]] : List (List ℚ)).getD i []).length →
      j < (([[10, 20], [30]] : List (List ℚ)).getD i []).length →
      ((RD.sgdUpdates (1/2) [[1, 2], [3]] [[10, 20], [30]]).getD i []).getD j 0
        = (([[1, 2], [3]] : List (List ℚ)).getD i []).getD j 0
            - (1/2) * ((([[10, 20], [30]] : List (List ℚ)).getD i []).getD j 0) :=
  C6_sgd_plain_update (1/2) [[1, 2], [3]] [[10, 20], [30]] rfl

/-- C3. The hidden and convolutional layers of example3.py pass
`low = -bound`, `high = +bound` with the positive Xavier bound to the uniform
sampler (shown at the script's sizes n_in=6400, n_nodes=40 and fan_in=64,
fan_out=6400), but the OutputLayer (n_in=40, n_nodes=1) negates the bound, so
its `high` argument is `-sqrt(6/41) < 0`: the code contradicts the claim (and
the spec's own design note flags this inverted variant as a latent bug). -/
theorem C3_output_bound_inverted :
    RD.hiddenUniformLow 6400 40 = -(RD.xavierBound 6400 40) ∧
    RD.hiddenUniformHigh 6400 40 = RD.xavierBound 6400 40 ∧
    0 < RD.hiddenUniformHigh 6400 40 ∧
    RD.convUniformLow 64 6400 = -(RD.xavierBound 64 6400) ∧
    RD.convUniformHigh 64 6400 = RD.xavierBound 64 6400 ∧
    0 < RD.convUniformHigh 64 6400 ∧
    RD.outputUniformHigh 40 1 = -(RD.xavierBound 40 1) ∧
    RD.outputUniformHigh 40 1 < 0 := by
  have hx : ∀ m n : ℕ, 0 < m + n → 0 < RD.xavierBound m n := by
    intro m n h
    apply Real.sqrt_pos.mpr
    apply div_pos (by norm_num)
    have hc : (0 : ℝ) < ((m + n : ℕ) : ℝ) := by exact_mod_cast h
    push_cast at hc
    linarith
  refine ⟨rfl, rfl, hx 6400 40 (by norm_num), rfl, rfl, hx 64 6400 (by norm_num),
    rfl, ?_⟩
  have := hx 40 1 (by norm_num)
  unfold RD.outputUniformHigh RD.outputWBound
  linarith

/-- C5. One full gradient-descent step with learning rate 1/50 on the single
affine unit with weights 2, bias 0, input `[[1, 1]]` and target `[[0]]` moves
the parameters to `(1.98, 1.98, -0.02)` and strictly reduces the cost
`|output − target|` (from 4 to 3.94). -/
theorem C5_descent_step :
    RD.gdStep (1/50) 1 1 2 2 0 0 = (99/50, 99/50, -(1/50)) ∧
    RD.scalarCost 1 1 (RD.gdStep (1/50) 1 1 2 2 0 0).1
        (RD.gdStep (1/50) 1 1 2 2 0 0).2.1 (RD.gdStep (1/50) 1 1 2 2 0 0).2.2 0
      < RD.scalarCost 1 1 2 2 0 0 := by
  have hstep : RD.gdStep (1/50) 1 1 2 2 0 0 = (99/50, 99/50, -(1/50)) := by
    norm_num [RD.gdStep, RD.scalarCostGrad, RD.residualSign, RD.affineForward]
  refine ⟨hstep, ?_⟩
  rw [hstep]
  norm_num [RD.scalarCost, RD.affineForward, abs_of_pos]

/-- C9. For every dataset adapter, `batch(i)` succeeds exactly when
`0 ≤ i < num_batches`, and fails with IndexError exactly when `i` is outside
that range. -/
theorem C9_batch_bounds (d : RD.Dataset) (i : ℤ) :
    ((d.batch i).isOk ↔ 0 ≤ i ∧ i < (d.num_batches : ℤ)) ∧
    (d.batch i = .error .indexError
        ↔ ¬(0 ≤ i ∧ i < (d.num_batches : ℤ))) := by
  by_cases h : 0 ≤ i ∧ i < (d.batches.length : ℤ)
  · constructor
    · unfold RD.Dataset.batch
      rw [dif_pos h]
      simp [Except.isOk, Except.toBool, RD.Dataset.num_batches, h]
    · unfold RD.Dataset.batch
      rw [dif_pos h]
      simp [RD.Dataset.num_batches, h]
  · constructor
    · unfold RD.Dataset.batch
      rw [dif_neg h]
      simp [Except.isOk, Except.toBool, RD.Dataset.num_batches, h]
    · unfold RD.Dataset.batch
      rw [dif_neg h]
      simp [RD.Dataset.num_batches, h]

/-- C10. `NeuralNet.train` dispatches the batch to the accelerator (appends it
to the dispatch log) exactly when the three shape assertions hold; when any of
them fails it raises AssertionError before `startBatch`, producing no new
state. -/
theorem C10_train_preconditions (net : RD.NeuralNet)
    (inputs outputs : RD.Tensor) :
    (inputs.dim0 = net.nr_inputs ∧ outputs.dim0 = net.nr_outputs ∧
        inputs.dim1 = outputs.dim1 →
      net.train inputs outputs
        = .ok { net with dispatched := net.dispatched ++ [(inputs, outputs)] }) ∧
    (¬(inputs.dim0 = net.nr_inputs ∧ outputs.dim0 = net.nr_outputs ∧
        inputs.dim1 = outputs.dim1) →
      net.train inputs outputs = .error .assertionError) := by
  constructor
  · intro h
    unfold RD.NeuralNet.train
    rw [if_pos h]
  · intro h
    unfold RD.NeuralNet.train
    rw [if_neg h]

/-- C10 witness: a net declaring 2 inputs and 1 output accepts a 2×3 input
against a 1×3 output batch and logs exactly that dispatch. -/
theorem C10_train_preconditions_witness :
    RD.NeuralNet.train ⟨2, 1, []⟩ ⟨[2, 3], [0, 0, 0, 0, 0, 0]⟩ ⟨[1, 3], [0, 0, 0]⟩
      = .ok ⟨2, 1, [(⟨[2, 3], [0, 0, 0, 0, 0, 0]⟩, ⟨[1, 3], [0, 0, 0]⟩)]⟩ :=
  (C10_train_preconditions ⟨2, 1, []⟩ ⟨[2, 3], [0, 0, 0, 0, 0, 0]⟩
    ⟨[1, 3], [0, 0, 0]⟩).1 ⟨rfl, rfl, rfl⟩
